import Mathlib

/-!
Verification of the dify-sandbox-py execution engine.

Shallow embedding of `src/app/executor.py` and `src/app/main.py`.
Effects of the Python code are made explicit:

- the outcome of `exec(code)` inside the embedded python runner is an
  `ExecOutcome` (completed, or raised, with the captured stdio buffers);
- the outcome of spawning the external node process is a `SpawnOutcome`
  (process exited with a return code and captured streams, or the spawn
  itself raised an exception);
- the outcome of awaiting the process-pool future under `asyncio.wait_for`
  is a `PoolOutcome` (completed, timed out, or raised);
- side effects that the claims talk about (deleting the temporary file,
  incrementing/decrementing the in-flight counter, acquiring the
  concurrency semaphore, dispatching an execution) are returned as
  explicit fields of the result.
-/

/-- The result dictionary produced by the runners and by
`CodeExecutor.execute`: keys `success`, `output`, `error`
(`error` may be Python `None`, modelled as `Option.none`). -/
structure ExecResult where
  success : Bool
  output : String
  error : Option String
deriving Repr, DecidableEq

/-- Outcome of `exec(code, global_namespace)` inside
`_run_python_code_in_process` with stdout/stderr redirected into buffers:
either the code completes, or it raises; in both cases the buffers hold
whatever was written before completion or before the raise.  On a raise,
`excMsg` is `str(e)` and `tb` is `traceback.format_exc()`. -/
inductive ExecOutcome where
  | ok (stdout stderr : String)
  | raises (stdout stderr excMsg tb : String)
deriving Repr, DecidableEq

/-- Shallow embedding of `_run_python_code_in_process`
(src/app/executor.py lines 20-69).  The success branch returns
`stderr_output or None` for `error`; the except branch reads only the
stdout buffer and formats the exception text with its traceback. -/
def _run_python_code_in_process : ExecOutcome → ExecResult
  | .ok stdout stderr =>
      { success := true
        output := stdout
        error := if stderr = "" then none else some stderr }
  | .raises stdout _stderr excMsg tb =>
      { success := false
        output := stdout
        error := some (excMsg ++ "\n\nTraceback:\n" ++ tb) }

/-- Outcome of `subprocess.Popen(['node', path], ...)` followed by
`process.communicate()` inside `_run_nodejs_code_in_process`: either the
process was spawned and exited with `returncode` producing the captured
streams, or an exception was raised while spawning or waiting (before the
`os.unlink` line was reached); then `excMsg` is `str(e)` and `tb` is
`traceback.format_exc()`. -/
inductive SpawnOutcome where
  | exited (returncode : Int) (stdout stderr : String)
  | spawnError (excMsg tb : String)
deriving Repr, DecidableEq

/-- Shallow embedding of `_run_nodejs_code_in_process`
(src/app/executor.py lines 71-128).  The second component records whether
`os.unlink(temp_file_path)` was executed before returning: the unlink on
line 95 runs only after `communicate()` returned; the except branch on
line 118 returns without deleting the file. -/
def _run_nodejs_code_in_process : SpawnOutcome → ExecResult × Bool
  | .exited returncode stdout stderr =>
      if returncode = 0 then
        ({ success := true, output := stdout, error := none }, true)
      else
        ({ success := false, output := stdout, error := some stderr }, true)
  | .spawnError excMsg tb =>
      ({ success := false
         output := ""
         error := some (excMsg ++ "\n\nTraceback:\n" ++ tb) }, false)

/-- Outcome of `await asyncio.wait_for(future, timeout=self.timeout)` for
the future dispatched to the process pool: the worker function returned a
result dictionary, the deadline expired first (`asyncio.TimeoutError`), or
some other exception was raised (`except Exception` branch). -/
inductive PoolOutcome where
  | completed (r : ExecResult)
  | timedOut
  | raised (excMsg tb : String)
deriving Repr, DecidableEq

/-- The tail of `CodeExecutor.execute` once an executor function has been
selected: await the dispatched future, mapping a timeout to the
synthesized timeout failure and any other exception to a diagnostic
failure (src/app/executor.py lines 175-201). -/
def awaitDispatch (timeout : Nat) : PoolOutcome → ExecResult
  | .completed r => r
  | .timedOut =>
      { success := false
        output := ""
        error := some ("代码执行超时 (>" ++ toString timeout ++ "秒)") }
  | .raised excMsg tb =>
      { success := false
        output := ""
        error := some (excMsg ++ "\n\nTraceback:\n" ++ tb) }

/-- Shallow embedding of `CodeExecutor.execute`
(src/app/executor.py lines 151-201).  `timeout` and `nodejs_available`
are the instance fields; `code` is forwarded to the worker (its effect is
abstracted into the `PoolOutcome`).  Unsupported languages and an
unavailable node runtime return fixed failures before any dispatch. -/
def CodeExecutor.execute (timeout : Nat) (nodejs_available : Bool)
    (code : String) (language : String) (d : PoolOutcome) : ExecResult :=
  if language = "python3" then
    awaitDispatch timeout d
  else if language = "nodejs" then
    if nodejs_available then
      awaitDispatch timeout d
    else
      { success := false, output := "", error := some "Node.js未安装或不可用" }
  else
    { success := false, output := "", error := some ("不支持的语言: " ++ language) }

/-- The request body of `/v1/sandbox/run` (src/app/main.py lines 44-48). -/
structure CodeRequest where
  language : String
  code : String
  preload : String
  enable_network : Bool
deriving Repr, DecidableEq

/-- The `data` object of a response (src/app/main.py lines 135-138). -/
structure ResponseData where
  stdout : String
  error : String
deriving Repr, DecidableEq

/-- A response dictionary `{code, message, data}` (src/app/main.py). -/
structure ApiResponse where
  code : Int
  message : String
  data : Option ResponseData
deriving Repr, DecidableEq

/-- Python `x or d` on strings: the empty string is falsy. -/
def pyStrOr (x d : String) : String :=
  if x = "" then d else x

/-- Python `x or d` where `x : Optional[str]`: both `None` and the empty
string fall back to `d`. -/
def pyOptOr (x : Option String) (d : String) : String :=
  match x with
  | none => d
  | some s => pyStrOr s d

/-- Shallow embedding of the `execute_code` endpoint handler
(src/app/main.py lines 101-139).  The second component records whether
`executor.execute` was invoked (an execution dispatched): the unsupported
language check on line 111 returns before it is called. -/
def execute_code (timeout : Nat) (nodejs_available : Bool)
    (req : CodeRequest) (d : PoolOutcome) : ApiResponse × Bool :=
  if req.language ∉ (["python3", "nodejs"] : List String) then
    ({ code := -400, message := "unsupported language", data := none }, false)
  else
    let result := CodeExecutor.execute timeout nodejs_available req.code req.language d
    ({ code := 0
       message := "success"
       data := some { error := pyOptOr result.error ""
                      stdout := pyStrOr result.output "" } }, true)

/-- One operation on the `current_requests` counter of the middleware. -/
inductive CounterOp where
  | inc
  | dec
deriving Repr, DecidableEq

/-- Apply one counter operation (`+= 1` / `-= 1`; the counter is a
natural number in every reachable state). -/
def applyOp (n : Nat) : CounterOp → Nat
  | .inc => n + 1
  | .dec => n - 1

/-- The counter value after a sequence of operations. -/
def finalCounter (n : Nat) (ops : List CounterOp) : Nat :=
  ops.foldl applyOp n

/-- All counter values observed while a sequence of operations runs,
starting value included. -/
def counterStates (n : Nat) : List CounterOp → List Nat
  | [] => [n]
  | op :: rest => n :: counterStates (applyOp n op) rest

/-- What `call_next(request)` does from the middleware's point of view:
the downstream handler returns a response (having dispatched an execution
or not), or raises an exception. -/
inductive HandlerOutcome where
  | returns (resp : ApiResponse) (dispatched : Bool)
  | raises (excMsg : String)
deriving Repr, DecidableEq

/-- What the middleware call produces: a response, or a propagated
exception. -/
inductive HttpOutcome where
  | ok (r : ApiResponse)
  | raised (excMsg : String)
deriving Repr, DecidableEq

/-- Observable trace of one pass through `ConcurrencyMiddleware.dispatch`:
the outcome, the operations performed on `current_requests`, whether the
semaphore was acquired, and whether the downstream handler dispatched an
execution. -/
structure RunTrace where
  response : HttpOutcome
  counterOps : List CounterOp
  semaphoreAcquired : Bool
  executionDispatched : Bool
deriving Repr, DecidableEq

/-- Shallow embedding of `ConcurrencyMiddleware.dispatch`
(src/app/main.py lines 75-91) for a single request processed
sequentially.  On the run path: reject with -503 when the counter is at
or above `maxRequests` (no increment, no semaphore); otherwise increment,
acquire the semaphore, run the handler, and decrement in the `finally`
block whether the handler returned or raised. -/
def ConcurrencyMiddleware.dispatch (maxRequests currentRequests : Nat)
    (pathIsRun : Bool) (inner : HandlerOutcome) : RunTrace :=
  if pathIsRun then
    if currentRequests ≥ maxRequests then
      { response := .ok { code := -503, message := "Too many requests", data := none }
        counterOps := []
        semaphoreAcquired := false
        executionDispatched := false }
    else
      match inner with
      | .returns r d =>
          { response := .ok r
            counterOps := [.inc, .dec]
            semaphoreAcquired := true
            executionDispatched := d }
      | .raises m =>
          { response := .raised m
            counterOps := [.inc, .dec]
            semaphoreAcquired := true
            executionDispatched := false }
  else
    match inner with
    | .returns r d =>
        { response := .ok r
          counterOps := []
          semaphoreAcquired := false
          executionDispatched := d }
    | .raises m =>
        { response := .raised m
          counterOps := []
          semaphoreAcquired := false
          executionDispatched := false }

/-- The whole pipeline for a request to `/v1/sandbox/run`: the
concurrency middleware wrapping the `execute_code` handler. -/
def handle_run_request (maxRequests currentRequests timeout : Nat)
    (nodejs_available : Bool) (req : CodeRequest) (d : PoolOutcome) : RunTrace :=
  ConcurrencyMiddleware.dispatch maxRequests currentRequests true
    (.returns (execute_code timeout nodejs_available req d).1
              (execute_code timeout nodejs_available req d).2)

/-- Modelled from the spec: executing the empty source string with the
embedded interpreter is a no-op that completes without raising and writes
nothing to stdout or stderr. -/
def emptySourceOutcome : ExecOutcome := .ok "" ""

/-- Request with an unsupported language, used to exhibit the middleware
behaviour on the unsupported-language path. -/
def rubyRequest : CodeRequest :=
  { language := "ruby", code := "puts 1", preload := "", enable_network := false }

/-- C1 counterexample: a node run that exits with code 0 while producing
the non-empty stderr "warning" is reported with `error = none` (Python
`None`) — the captured stderr is not returned as error text, contrary to
the claim. -/
theorem nodejs_zero_exit_stderr_not_reported :
    (_run_nodejs_code_in_process (.exited 0 "" "warning")).1.success = true ∧
    (_run_nodejs_code_in_process (.exited 0 "" "warning")).1.error = none ∧
    (none : Option String) ≠ some "warning" := by
  refine ⟨rfl, rfl, by simp⟩

/-- C1 (amended): for every node run where the spawned process exits,
`success = (exit code == 0)`; on zero exit the `error` field is always
`None` (any captured stderr is discarded), and on non-zero exit the
`error` field is the captured stderr. -/
theorem nodejs_exit_result_shape (rc : Int) (stdout stderr : String) :
    (_run_nodejs_code_in_process (.exited rc stdout stderr)).1 =
      if rc = 0 then { success := true, output := stdout, error := none }
      else { success := false, output := stdout, error := some stderr } := by
  by_cases h : rc = 0 <;> simp [_run_nodejs_code_in_process, h]

/-- C2 counterexample: when spawning the node process raises, the runner
catches the exception and returns, but the temporary file holding the
source is not deleted. -/
theorem nodejs_spawn_failure_leaves_temp_file :
    (_run_nodejs_code_in_process (.spawnError "FileNotFoundError" "tb")).2 = false :=
  rfl

/-- C2 (amended): the temporary file is deleted before the runner returns
on every run where the interpreter process was spawned and waited for
(any exit code); when spawning raises, the exception is caught and
reported but the temporary file is not deleted. -/
theorem nodejs_temp_file_deleted_after_exit (rc : Int) (stdout stderr : String) :
    (_run_nodejs_code_in_process (.exited rc stdout stderr)).2 = true := by
  by_cases h : rc = 0 <;> simp [_run_nodejs_code_in_process, h]

/-- C3 counterexample: a run request with the unsupported language "ruby",
arriving well below the ceiling, gets the fixed -400 response, yet the
middleware has acquired the concurrency semaphore and incremented the
in-flight counter — contradicting the claim that the semaphore is not
acquired for unsupported-language requests. -/
theorem unsupported_language_still_acquires_semaphore :
    (handle_run_request 1000 0 30 true rubyRequest .timedOut).semaphoreAcquired = true ∧
    (handle_run_request 1000 0 30 true rubyRequest .timedOut).counterOps = [.inc, .dec] ∧
    (handle_run_request 1000 0 30 true rubyRequest .timedOut).response =
      .ok { code := -400, message := "unsupported language", data := none } := by
  refine ⟨rfl, rfl, rfl⟩

/-- C3 (amended): every admitted request with an unsupported language
gets the fixed -400 unsupported-language failure (`data = none`) and no
execution is dispatched to the pool, but the request still passes through
the concurrency middleware, which increments the in-flight counter and
acquires the concurrency semaphore before the handler rejects the
language. -/
theorem unsupported_language_fixed_rejection (maxR cur timeout : Nat)
    (avail : Bool) (req : CodeRequest) (d : PoolOutcome)
    (hlang : req.language ∉ (["python3", "nodejs"] : List String))
    (hadm : cur < maxR) :
    (handle_run_request maxR cur timeout avail req d).response =
      .ok { code := -400, message := "unsupported language", data := none } ∧
    (handle_run_request maxR cur timeout avail req d).executionDispatched = false ∧
    (handle_run_request maxR cur timeout avail req d).semaphoreAcquired = true ∧
    (handle_run_request maxR cur timeout avail req d).counterOps = [.inc, .dec] := by
  have hlt : ¬ cur ≥ maxR := Nat.not_le.mpr hadm
  simp [handle_run_request, ConcurrencyMiddleware.dispatch, execute_code, hlang, hlt]

/-- C3 witness. -/
theorem unsupported_language_fixed_rejection_witness :
    rubyRequest.language ∉ (["python3", "nodejs"] : List String) ∧ (5 : Nat) < 1000 ∧
    ((handle_run_request 1000 5 30 true rubyRequest .timedOut).response =
       .ok { code := -400, message := "unsupported language", data := none } ∧
     (handle_run_request 1000 5 30 true rubyRequest .timedOut).executionDispatched = false ∧
     (handle_run_request 1000 5 30 true rubyRequest .timedOut).semaphoreAcquired = true ∧
     (handle_run_request 1000 5 30 true rubyRequest .timedOut).counterOps = [.inc, .dec]) :=
  ⟨by decide, by decide,
   unsupported_language_fixed_rejection 1000 5 30 true rubyRequest .timedOut
     (by decide) (by decide)⟩

/-- C4: every admitted run request (one that increments the in-flight
counter) performs exactly the operation sequence increment-then-decrement
on every outcome path — handler returned (success, code failure, timeout
result) or handler raised — so the counter returns to its pre-request
value and is decremented exactly once. -/
theorem admitted_request_counter_restored (maxR cur : Nat)
    (inner : HandlerOutcome) (hadm : cur < maxR) :
    (ConcurrencyMiddleware.dispatch maxR cur true inner).counterOps = [.inc, .dec] ∧
    finalCounter cur (ConcurrencyMiddleware.dispatch maxR cur true inner).counterOps = cur ∧
    ((ConcurrencyMiddleware.dispatch maxR cur true inner).counterOps.count .dec) = 1 := by
  have hlt : ¬ cur ≥ maxR := Nat.not_le.mpr hadm
  cases inner <;>
    simp [ConcurrencyMiddleware.dispatch, hlt, finalCounter, applyOp, List.count_cons]

/-- C4 witness. -/
theorem admitted_request_counter_restored_witness :
    (7 : Nat) < 1000 ∧
    ((ConcurrencyMiddleware.dispatch 1000 7 true (.raises "boom")).counterOps = [.inc, .dec] ∧
     finalCounter 7 (ConcurrencyMiddleware.dispatch 1000 7 true (.raises "boom")).counterOps = 7 ∧
     ((ConcurrencyMiddleware.dispatch 1000 7 true (.raises "boom")).counterOps.count .dec) = 1) :=
  ⟨by decide, admitted_request_counter_restored 1000 7 (.raises "boom") (by decide)⟩

/-- C5: a run request arriving when the counter is at or above the
ceiling is rejected with the -503 overloaded response, with no counter
operation (rejection happens before the increment), without acquiring the
semaphore and without dispatching an execution; and whenever the counter
starts at or below the ceiling, every counter value observed while the
request is processed stays at or below the ceiling. -/
theorem overload_rejection_and_ceiling (maxR cur : Nat) (inner : HandlerOutcome) :
    (maxR ≤ cur →
      (ConcurrencyMiddleware.dispatch maxR cur true inner).response =
        .ok { code := -503, message := "Too many requests", data := none } ∧
      (ConcurrencyMiddleware.dispatch maxR cur true inner).counterOps = [] ∧
      (ConcurrencyMiddleware.dispatch maxR cur true inner).semaphoreAcquired = false ∧
      (ConcurrencyMiddleware.dispatch maxR cur true inner).executionDispatched = false) ∧
    (cur ≤ maxR →
      ∀ x ∈ counterStates cur (ConcurrencyMiddleware.dispatch maxR cur true inner).counterOps,
        x ≤ maxR) := by
  constructor
  · intro h
    simp [ConcurrencyMiddleware.dispatch, h]
  · intro h x hx
    by_cases hge : cur ≥ maxR
    · simp [ConcurrencyMiddleware.dispatch, hge, counterStates] at hx
      omega
    · cases inner <;>
        simp [ConcurrencyMiddleware.dispatch, hge, counterStates, applyOp] at hx <;>
        omega

/-- C5 witness. -/
theorem overload_rejection_and_ceiling_witness :
    ((ConcurrencyMiddleware.dispatch 2 2 true (.raises "boom")).response =
       .ok { code := -503, message := "Too many requests", data := none } ∧
     (ConcurrencyMiddleware.dispatch 2 2 true (.raises "boom")).counterOps = [] ∧
     (ConcurrencyMiddleware.dispatch 2 2 true (.raises "boom")).semaphoreAcquired = false ∧
     (ConcurrencyMiddleware.dispatch 2 2 true (.raises "boom")).executionDispatched = false) ∧
    (∀ x ∈ counterStates 1
        (ConcurrencyMiddleware.dispatch 2 1 true (.raises "boom")).counterOps, x ≤ 2) :=
  ⟨(overload_rejection_and_ceiling 2 2 (.raises "boom")).1 (by decide),
   (overload_rejection_and_ceiling 2 1 (.raises "boom")).2 (by decide)⟩

/-- C6: the embedded python runner reports `success = true` exactly on
outcomes where `exec` completed without raising; on success a non-empty
captured stderr is still returned as the error text while an empty stderr
yields `error = none`; and the empty source (a no-op execution) yields
success with empty stdout and no error. -/
theorem python_runner_success_shape :
    (∀ stdout stderr, _run_python_code_in_process (.ok stdout stderr) =
       { success := true
         output := stdout
         error := if stderr = "" then none else some stderr }) ∧
    (∀ stdout stderr excMsg tb,
       (_run_python_code_in_process (.raises stdout stderr excMsg tb)).success = false) ∧
    _run_python_code_in_process emptySourceOutcome =
      { success := true, output := "", error := none } := by
  refine ⟨fun so se => rfl, fun so se m tb => rfl, ?_⟩
  simp [_run_python_code_in_process, emptySourceOutcome]

/-- C7: whenever an execution is actually dispatched (supported language;
for nodejs, with the runtime available) and the pool future does not
complete within the deadline, `CodeExecutor.execute` returns exactly the
synthesized timeout result: `success = false`, empty output, and an error
message naming the elapsed bound. -/
theorem timeout_result_shape (timeout : Nat) (avail : Bool)
    (code lang : String)
    (h : lang = "python3" ∨ (lang = "nodejs" ∧ avail = true)) :
    CodeExecutor.execute timeout avail code lang .timedOut =
      { success := false
        output := ""
        error := some ("代码执行超时 (>" ++ toString timeout ++ "秒)") } := by
  rcases h with h | ⟨h, ha⟩ <;> subst h <;>
    simp [CodeExecutor.execute, awaitDispatch]
  simp [ha]

/-- C7 witness. -/
theorem timeout_result_shape_witness :
    CodeExecutor.execute 10000 true "while True: pass" "python3" .timedOut =
      { success := false
        output := ""
        error := some ("代码执行超时 (>" ++ toString (10000 : Nat) ++ "秒)") } :=
  timeout_result_shape 10000 true "while True: pass" "python3" (Or.inl rfl)

/-- C8: `CodeExecutor.execute` is a total function into the result shape
(no exception channel exists: every path, including the catch-all
`except Exception` modelled by `PoolOutcome.raised`, yields a result with
`success`, `output` and `error` fields): whenever the completed results
come from one of the two runners, a `success = false` result always
carries error text, and an unexpected coordinator-level exception on a
dispatching path is converted to `success = false` with its diagnostic
text. -/
theorem execute_never_propagates (timeout : Nat) (avail : Bool)
    (code lang : String) (d : PoolOutcome)
    (hrunner : ∀ r, d = .completed r →
      (∃ o, r = _run_python_code_in_process o) ∨
      (∃ s, r = (_run_nodejs_code_in_process s).1)) :
    ((CodeExecutor.execute timeout avail code lang d).success = false →
      ((CodeExecutor.execute timeout avail code lang d).error).isSome = true) ∧
    (∀ excMsg tb, d = .raised excMsg tb →
      (lang = "python3" ∨ (lang = "nodejs" ∧ avail = true)) →
      CodeExecutor.execute timeout avail code lang d =
        { success := false
          output := ""
          error := some (excMsg ++ "\n\nTraceback:\n" ++ tb) }) := by
  have hawait : ∀ p : PoolOutcome,
      (∀ r, p = .completed r →
        (∃ o, r = _run_python_code_in_process o) ∨
        (∃ s, r = (_run_nodejs_code_in_process s).1)) →
      (awaitDispatch timeout p).success = false →
      ((awaitDispatch timeout p).error).isSome = true := by
    intro p hp hfail
    cases p with
    | completed r =>
        rcases hp r rfl with ⟨o, rfl⟩ | ⟨s, rfl⟩
        · cases o with
          | ok so se =>
              simp [awaitDispatch, _run_python_code_in_process] at hfail
          | raises so se m tb =>
              simp [awaitDispatch, _run_python_code_in_process]
        · cases s with
          | exited rc so se =>
              by_cases h0 : rc = 0
              · simp [awaitDispatch, _run_nodejs_code_in_process, h0] at hfail
              · simp [awaitDispatch, _run_nodejs_code_in_process, h0]
          | spawnError m tb => simp [awaitDispatch, _run_nodejs_code_in_process]
    | timedOut => simp [awaitDispatch]
    | raised m tb => simp [awaitDispatch]
  constructor
  · intro hfail
    by_cases h1 : lang = "python3"
    · simp [CodeExecutor.execute, h1] at hfail ⊢
      exact hawait d hrunner hfail
    · by_cases h2 : lang = "nodejs"
      · cases avail with
        | true =>
            simp [CodeExecutor.execute, h1, h2] at hfail ⊢
            exact hawait d hrunner hfail
        | false =>
            simp [CodeExecutor.execute, h1, h2]
      · simp [CodeExecutor.execute, h1, h2]
  · rintro excMsg tb rfl (rfl | ⟨rfl, rfl⟩)
    · simp [CodeExecutor.execute, awaitDispatch]
    · simp [CodeExecutor.execute, awaitDispatch]

/-- C8 witness. -/
theorem execute_never_propagates_witness :
    CodeExecutor.execute 30 true "print(1)" "python3" (.raised "boom" "tbtext") =
      { success := false
        output := ""
        error := some ("boom" ++ "\n\nTraceback:\n" ++ "tbtext") } :=
  (execute_never_propagates 30 true "print(1)" "python3" (.raised "boom" "tbtext")
      (by rintro r ⟨⟩)).2 "boom" "tbtext" rfl (Or.inl rfl)

/-- C9: when the embedded python run raises, the result's error text is
exactly the exception message followed by the formatted traceback, the
stdout written before the failure is returned as `output`, and the result
does not depend on anything written to stderr before the raise (the
stderr buffer is never read on this path), so that text appears in
neither field. -/
theorem python_runner_raise_discards_stderr
    (stdout stderr stderr' excMsg tb : String) :
    _run_python_code_in_process (.raises stdout stderr excMsg tb) =
      { success := false
        output := stdout
        error := some (excMsg ++ "\n\nTraceback:\n" ++ tb) } ∧
    _run_python_code_in_process (.raises stdout stderr excMsg tb) =
      _run_python_code_in_process (.raises stdout stderr' excMsg tb) :=
  ⟨rfl, rfl⟩

/-- C10: a node run whose process exits with a non-zero code while
producing empty stderr yields `success = false` with `error` equal to
the empty string (`some ""`, not `none`): a failed external run need not
carry non-empty error text. -/
theorem nodejs_nonzero_exit_empty_stderr (rc : Int) (stdout : String)
    (h : rc ≠ 0) :
    (_run_nodejs_code_in_process (.exited rc stdout "")).1 =
      { success := false, output := stdout, error := some "" } := by
  simp [_run_nodejs_code_in_process, h]

/-- C10 witness. -/
theorem nodejs_nonzero_exit_empty_stderr_witness :
    (_run_nodejs_code_in_process (.exited 1 "partial output" "")).1 =
      { success := false, output := "partial output", error := some "" } :=
  nodejs_nonzero_exit_empty_stderr 1 "partial output" (by decide)
